import Mathlib

/-!
Shallow embedding of the execution core of the workflow-orchestration agent:
the task engine (`src/prefect/new_task_engine.py`) and the runner
(`src/prefect/runner.py`).  Machine state is passed explicitly; the
orchestration server is modelled as an oracle (a queue of response states
consumed in order, with "echo the proposal" as the default acceptance
behaviour once the queue is exhausted).  Wall-clock instants and durations
are integers counting seconds.
-/

namespace Prefect

/-- Modelled from the spec: the `State` tagged variant of
`prefect.client.schemas.objects` / `prefect.states` (not under `src/`).
Spec section 3 lists the variants Pending, Running, Paused, Retrying,
Completed, Failed, Crashed, Cancelling, Cancelled; Scheduled appears as a
flow-run state type in the runner queries. -/
inductive StateType
  | Scheduled
  | Pending
  | Running
  | Retrying
  | Paused
  | Completed
  | Failed
  | Crashed
  | Cancelling
  | Cancelled
  deriving DecidableEq, Repr

/-- Modelled from the spec: the `StateDetails` sub-record carried by every
state (`cache_key`, `refresh_cache`, `cache_expiration`, `pause_reschedule`);
`prefect.states.StateDetails` itself is not under `src/`.  A
freshly-constructed state carries all-null details. -/
structure StateDetails where
  cache_key : Option String
  refresh_cache : Option Bool
  cache_expiration : Option Int
  pause_reschedule : Bool
  deriving DecidableEq, Repr

def StateDetails.null : StateDetails :=
  { cache_key := none, refresh_cache := none, cache_expiration := none,
    pause_reschedule := false }

/-- Modelled from the spec: a state value (type tag, optional display name,
optional message, details). -/
structure State where
  type : StateType
  name : Option String
  message : Option String
  state_details : StateDetails
  deriving DecidableEq, Repr

def State.is_pending (s : State) : Bool := s.type == StateType.Pending

def State.is_running (s : State) : Bool := s.type == StateType.Running

def State.is_paused (s : State) : Bool := s.type == StateType.Paused

def State.is_completed (s : State) : Bool := s.type == StateType.Completed

def State.is_failed (s : State) : Bool := s.type == StateType.Failed

/-- Modelled from the spec: `prefect.states.Pending(name=..., message=...)`
state constructor (not under `src/`). -/
def PendingState (name : Option String) (message : Option String) : State :=
  { type := StateType.Pending, name := name, message := message,
    state_details := StateDetails.null }

/-- Modelled from the spec: `prefect.states.Running(state_details=...)`
state constructor (not under `src/`). -/
def RunningState (details : StateDetails) : State :=
  { type := StateType.Running, name := none, message := none,
    state_details := details }

/-- Modelled from the spec: `prefect.states.Retrying()` state constructor
(not under `src/`); spec section 3 lists Retrying as its own variant, with
all-null details. -/
def RetryingState : State :=
  { type := StateType.Retrying, name := none, message := none,
    state_details := StateDetails.null }

/-- Modelled from the spec: `prefect.states.Paused()` state constructor
(not under `src/`). -/
def PausedState : State :=
  { type := StateType.Paused, name := none, message := none,
    state_details := StateDetails.null }

/-- Modelled from the spec: `prefect.states.Failed(message=..., name=...)`
state constructor (not under `src/`).  The attached exception payload
(`data=`) is not modelled. -/
def FailedState (name : Option String) (message : Option String) : State :=
  { type := StateType.Failed, name := name, message := message,
    state_details := StateDetails.null }

/-- Modelled from the spec: the Completed state produced by
`return_value_to_state` for a plain return value (not under `src/`);
`handle_success` then overwrites its `state_details` wholesale. -/
def CompletedState (details : StateDetails) : State :=
  { type := StateType.Completed, name := none, message := none,
    state_details := details }

/-- The task attributes consumed by `TaskRunEngine`
(`new_task_engine.py`).  The retry-condition predicate takes
`(task, task_run, state)` in the source; the task and run are fixed for a
given engine, so the predicate here consumes the state and the abstract
run token, and `Except.error` models an exception raised inside it.
Durations (`cache_expiration`) are integer seconds; the Python truthiness
check `if self.task.cache_expiration` is false for the absent value and
for a zero duration. -/
structure Task where
  retries : Nat
  retry_condition_fn : Option (Nat → State → Except Unit Bool)
  cache_key_fn : Option (Nat → String)
  cache_expiration : Option Int
  refresh_cache : Option Bool
  timeout_seconds : Option Nat

/-- The mutable engine bundle of `TaskRunEngine` plus its observable
traces:
* `state` is `task_run.state`;
* `responses` is the server oracle consumed by `propose_state_sync`
  (empty queue means the server accepts and echoes the proposal);
* `proposals` records every `(state, force)` pair handed to `set_state`;
* `retry_checks` counts evaluations of the `can_retry` property (the
  retry-condition consultation);
* `sleeps` records every `clamped_poisson_interval(average_interval,
  clamping_factor)` call made by the `begin_run` polling loop. -/
structure TaskRunEngine where
  task : Task
  parameters : Nat
  retries : Nat
  state : State
  responses : List State
  proposals : List (State × Bool)
  retry_checks : Nat
  sleeps : List (Nat × Rat)

/-- `TaskRunEngine.set_state` (new_task_engine.py:289): propose the state
to the server and store the server's reply into `task_run.state`.  The
`Pause`-signal branch is subsumed by the oracle replying with a Paused
state; the pause-reschedule re-raise is not needed by any claim. -/
def TaskRunEngine.set_state (e : TaskRunEngine) (s : State) (force : Bool) :
    TaskRunEngine :=
  match e.responses with
  | [] => { e with state := s, proposals := e.proposals ++ [(s, force)] }
  | r :: rest =>
      { e with state := r, responses := rest,
               proposals := e.proposals ++ [(s, force)] }

/-- `TaskRunEngine.can_retry` (new_task_engine.py:92-115): an absent
predicate counts as true; an exception raised inside the predicate is
logged and counts as false. -/
def TaskRunEngine.can_retry (e : TaskRunEngine) : Bool :=
  match e.task.retry_condition_fn with
  | none => true
  | some f =>
      match f e.parameters e.state with
      | Except.ok b => b
      | Except.error _ => false

/-- `TaskRunEngine.handle_retry` (new_task_engine.py:335-345).  The Python
conjunction `self.retries < self.task.retries and self.can_retry` is
short-circuiting, so the predicate is consulted (and `retry_checks`
bumped) only when retries remain. -/
def TaskRunEngine.handle_retry (e : TaskRunEngine) : TaskRunEngine × Bool :=
  if e.retries < e.task.retries then
    if e.can_retry then
      let e2 := ({ e with retry_checks := e.retry_checks + 1 }).set_state
        RetryingState true
      ({ e2 with retries := e2.retries + 1 }, true)
    else ({ e with retry_checks := e.retry_checks + 1 }, false)
  else (e, false)

/-- `TaskRunEngine._compute_state_details` (new_task_engine.py:168-215).
`globalRefresh` stands for the `PREFECT_TASKS_REFRESH_CACHE` setting and
`now` for `pendulum.now("utc")`. -/
def TaskRunEngine.compute_state_details (t : Task) (params : Nat) (now : Int)
    (globalRefresh : Bool) (include_cache_expiration : Bool) : StateDetails :=
  let cache_key :=
    match t.cache_key_fn with
    | some f => some (f params)
    | none => none
  let refresh_cache :=
    match t.refresh_cache with
    | some b => b
    | none => globalRefresh
  let cache_expiration :=
    if include_cache_expiration then
      match t.cache_expiration with
      | some d => if d = 0 then none else some (now + d)
      | none => none
    else none
  { cache_key := cache_key, refresh_cache := some refresh_cache,
    cache_expiration := cache_expiration, pause_reschedule := false }

/-- `TaskRunEngine.handle_success` (new_task_engine.py:319-333): build the
terminal state from the return value, overwrite its details with
`_compute_state_details(include_cache_expiration=True)`, propose it. -/
def TaskRunEngine.handle_success (e : TaskRunEngine) (now : Int)
    (globalRefresh : Bool) : TaskRunEngine :=
  let terminal := CompletedState
    (TaskRunEngine.compute_state_details e.task e.parameters now globalRefresh true)
  e.set_state terminal false

/-- `TaskRunEngine.handle_exception` (new_task_engine.py:347-359): try a
retry; otherwise propose the failed state built by
`exception_to_failed_state` (modelled from the spec: a Failed state with
the fixed message, all-null details; the helper is not under `src/`). -/
def TaskRunEngine.handle_exception (e : TaskRunEngine) : TaskRunEngine :=
  if e.handle_retry.2 then e.handle_retry.1
  else e.handle_retry.1.set_state
    (FailedState none (some "Task run encountered an exception")) false

/-- The message interpolated by `handle_timeout`
(new_task_engine.py:362); Python renders the absent value as "None". -/
def timeoutMessage (t : Task) : String :=
  let rendered :=
    match t.timeout_seconds with
    | some n => toString n
    | none => "None"
  "Task run exceeded timeout of " ++ rendered ++ " seconds"

/-- `TaskRunEngine.handle_timeout` (new_task_engine.py:361-369). -/
def TaskRunEngine.handle_timeout (e : TaskRunEngine) : TaskRunEngine :=
  e.set_state (FailedState (some "TimedOut") (some (timeoutMessage e.task))) false

/-- `BACKOFF_MAX` (new_task_engine.py:276). -/
def BACKOFF_MAX : Nat := 10

/-- The `begin_run` polling loop (new_task_engine.py:280-287): while the
state is pending or paused, grow `backoff_count` up to `BACKOFF_MAX`, call
`clamped_poisson_interval(average_interval=backoff_count,
clamping_factor=0.3)` (recorded in `sleeps`), sleep, and re-propose the
same `new_state`.  The loop is fuelled; `begin_run` passes enough fuel
that it always exits on its own condition (once the oracle queue is empty
the proposal is echoed and a Running state ends the loop). -/
def TaskRunEngine.poll_pending (new_state : State) :
    Nat → Nat → TaskRunEngine → TaskRunEngine
  | 0, _, e => e
  | fuel + 1, backoff_count, e =>
      if e.state.is_pending || e.state.is_paused then
        let bc := if backoff_count < BACKOFF_MAX then backoff_count + 1
                  else backoff_count
        let e1 := { e with sleeps := e.sleeps ++ [(bc, (3 : Rat) / 10)] }
        let e2 := e1.set_state new_state false
        TaskRunEngine.poll_pending new_state fuel bc e2
      else e

/-- `TaskRunEngine.begin_run` (new_task_engine.py:256-287).  `resolution`
is the outcome of `_resolve_parameters` / `_wait_for_dependencies`:
`some msg` stands for an `UpstreamTaskError` whose string rendering is
`msg`, `none` for success.  On the error the engine proposes
`Pending(name="NotReady", message=msg)` with `force = state.is_pending()`
and returns; otherwise it proposes `Running` once and then polls while the
server answers pending or paused. -/
def TaskRunEngine.begin_run (resolution : Option String) (now : Int)
    (globalRefresh : Bool) (e : TaskRunEngine) : TaskRunEngine :=
  match resolution with
  | some msg =>
      e.set_state (PendingState (some "NotReady") (some msg)) e.state.is_pending
  | none =>
      let state_details :=
        TaskRunEngine.compute_state_details e.task e.parameters now
          globalRefresh false
      let new_state := RunningState state_details
      let e1 := e.set_state new_state false
      TaskRunEngine.poll_pending new_state (e1.responses.length + 2) 0 e1

/-- One per-attempt outcome of running the user function under the timeout
wrapper in `run_task_sync` (new_task_engine.py:509-525): a clean return, a
`TimeoutError` from the wrapper, or an ordinary exception.  The dedicated
`except TimeoutError` clause (line 522) precedes `except Exception`
(line 524), so a timeout is never dispatched to `handle_exception`. -/
inductive Outcome
  | success
  | timed_out
  | exception

/-- The dispatch of one attempt's outcome in the `run_task_sync` loop body
(new_task_engine.py:520-525). -/
def TaskRunEngine.attempt_step (now : Int) (globalRefresh : Bool)
    (e : TaskRunEngine) : Outcome → TaskRunEngine
  | Outcome.success => e.handle_success now globalRefresh
  | Outcome.timed_out => e.handle_timeout
  | Outcome.exception => e.handle_exception

/-- `TaskRunEngine.is_running` (new_task_engine.py:484-487). -/
def TaskRunEngine.is_running (e : TaskRunEngine) : Bool := e.state.is_running

/-- The `while run.is_running()` loop of `run_task_sync`
(new_task_engine.py:507-525), fuelled by the list of per-attempt outcomes;
returns the engine and the number of attempts actually executed (the
number of invocations of the user task function). -/
def TaskRunEngine.run_loop (now : Int) (globalRefresh : Bool) :
    List Outcome → TaskRunEngine → TaskRunEngine × Nat
  | [], e => (e, 0)
  | o :: rest, e =>
      if e.is_running then
        let step := TaskRunEngine.run_loop now globalRefresh rest
          (e.attempt_step now globalRefresh o)
        (step.1, step.2 + 1)
      else (e, 0)

/-- `run_task_sync` (new_task_engine.py:490-533): a fresh engine is built
with `retries = 0` (the dataclass default), the initial task-run state
`s0` (the state the created task run carries), then `begin_run` and the
running loop.  Hooks and the final `result()` extraction are not modelled;
no claim depends on them. -/
def run_task_sync (task : Task) (params : Nat) (s0 : State)
    (responses : List State) (resolution : Option String)
    (outcomes : List Outcome) (now : Int) (globalRefresh : Bool) :
    TaskRunEngine × Nat :=
  let e0 : TaskRunEngine :=
    { task := task, parameters := params, retries := 0, state := s0,
      responses := responses, proposals := [], retry_checks := 0,
      sleeps := [] }
  let e1 := e0.begin_run resolution now globalRefresh
  TaskRunEngine.run_loop now globalRefresh outcomes e1

/-- The cache-expiration discipline a single proposal must satisfy: an
interim (non-Completed) state carries no `cache_expiration`, and a
Completed state carries exactly the details computed with
`include_cache_expiration=True`. -/
def ProposalOK (t : Task) (params : Nat) (now : Int) (g : Bool)
    (p : State × Bool) : Prop :=
  (p.1.type ≠ StateType.Completed →
    p.1.state_details.cache_expiration = none) ∧
  (p.1.type = StateType.Completed →
    p.1.state_details =
      TaskRunEngine.compute_state_details t params now g true)

/-! ## Runner (`src/prefect/runner.py`) -/

/-- `Runner.is_runner_still_polling` (runner.py:300-327): the threshold is
`query_interval_seconds * 30`; true iff the seconds elapsed since
`_last_polled_time` do not exceed it.  Instants are integer seconds, the
granularity at which the source compares (`.in_seconds()`). -/
def is_runner_still_polling (now last_polled_time : Int)
    (query_interval_seconds : Int) : Bool :=
  let threshold_seconds := query_interval_seconds * 30
  let seconds_since_last_poll := now - last_polled_time
  decide (seconds_since_last_poll ≤ threshold_seconds)

/-- The `_last_polled_time` update performed by every successful
`get_and_submit_flow_runs` tick (runner.py:329-334): the scheduled-run
query succeeded, then the clock is stamped. -/
def get_and_submit_flow_runs_clock (now : Int) (_last_polled_time : Int) :
    Int := now

/-- The result of `propose_state(client, Pending(), ...)` as observed by
`Runner._propose_pending_state`: the server returned a state, raised
`Abort`, or raised some other exception. -/
inductive ProposeOutcome
  | returned (s : State)
  | abort
  | raised

/-- `Runner._propose_pending_state` (runner.py:638-668): `Abort` and any
other exception yield false; a returned non-pending state yields false;
otherwise true.  The model is a total function: no branch raises. -/
def propose_pending_state (r : ProposeOutcome) : Bool :=
  match r with
  | ProposeOutcome.abort => false
  | ProposeOutcome.raised => false
  | ProposeOutcome.returned s => s.is_pending

/-- Outcome of `Runner._check_flow_run` (runner.py:509-522):
`storage_block` is the `ValueError` raised when the deployment is
configured with a storage block; `object_not_found` covers the
`ObjectNotFound` branch of the same `except` clause. -/
inductive PrecheckOutcome
  | passes
  | storage_block
  | object_not_found

/-- Outcome of `Runner.run` as awaited by
`_submit_run_and_capture_errors`: the process failed to start (exception
before `task_status.started`), or it exited with the given code. -/
inductive ProcessOutcome
  | start_failure
  | exits (code : Int)

/-- Per-flow-run accounting of the submission pipeline: how many capacity-
limiter slots were acquired/released on behalf of this run, whether its id
is still in `_submitting_flow_run_ids`, and how many Crashed states were
proposed. -/
structure SubmissionSt where
  limiter_acquired : Nat
  limiter_released : Nat
  submitting : Bool
  crashed_proposals : Nat
  deriving DecidableEq, Repr

/-- `Runner._submit_run_and_capture_errors` (runner.py:583-625): the
`finally` block releases the limiter slot on every path; an exception
before start proposes Crashed, a non-zero exit code proposes Crashed
after the release. -/
def submit_run_and_capture_errors (proc : ProcessOutcome)
    (st : SubmissionSt) : SubmissionSt :=
  match proc with
  | ProcessOutcome.start_failure =>
      let st1 := { st with crashed_proposals := st.crashed_proposals + 1 }
      { st1 with limiter_released := st1.limiter_released + 1 }
  | ProcessOutcome.exits code =>
      let st1 := { st with limiter_released := st.limiter_released + 1 }
      if code ≠ 0 then
        { st1 with crashed_proposals := st1.crashed_proposals + 1 }
      else st1

/-- `Runner._submit_run` (runner.py:545-581).  A failed precheck removes
the id from `_submitting_flow_run_ids` and returns (runner.py:561-562);
a rejected Pending proposal releases the slot (runner.py:577-579); an
accepted proposal awaits `_submit_run_and_capture_errors`.  In every case
the id is removed from `_submitting_flow_run_ids` at the end of the path
taken. -/
def submit_run (pre : PrecheckOutcome) (pending : ProposeOutcome)
    (proc : ProcessOutcome) (st : SubmissionSt) : SubmissionSt :=
  match pre with
  | PrecheckOutcome.storage_block => { st with submitting := false }
  | PrecheckOutcome.object_not_found => { st with submitting := false }
  | PrecheckOutcome.passes =>
      if propose_pending_state pending then
        let st1 := submit_run_and_capture_errors proc st
        { st1 with submitting := false }
      else
        let st1 := { st with limiter_released := st.limiter_released + 1 }
        { st1 with submitting := false }

/-- One candidate's admission in `_submit_scheduled_flow_runs`
(runner.py:478-500) followed by the spawned `_submit_run`: the limiter
slot is acquired non-blockingly, the id is added to
`_submitting_flow_run_ids`, and `_submit_run` runs. -/
def submit_pipeline (pre : PrecheckOutcome) (pending : ProposeOutcome)
    (proc : ProcessOutcome) : SubmissionSt :=
  let st0 : SubmissionSt :=
    { limiter_acquired := 1, limiter_released := 0, submitting := true,
      crashed_proposals := 0 }
  submit_run pre pending proc st0

/-! ### Cancellation dispatch -/

/-- Flow-run ids. -/
abbrev FlowId := Nat

/-- The runner state touched by the cancellation machinery:
`_flow_run_process_map` keys (ids with a live pid), the
`_cancelling_flow_run_ids` set, and a trace of the `cancel_run` tasks
spawned on the task group. -/
structure CancelSt where
  flow_run_process_map : List FlowId
  cancelling_flow_run_ids : List FlowId
  cancel_run_spawns : List FlowId
  deriving DecidableEq, Repr

/-- Set-insertion into `_cancelling_flow_run_ids` (`set.add`). -/
def CancelSt.add_cancelling (st : CancelSt) (i : FlowId) : CancelSt :=
  if st.cancelling_flow_run_ids.contains i then st
  else { st with cancelling_flow_run_ids := st.cancelling_flow_run_ids ++ [i] }

/-- The loop body at runner.py:389-391: add the id to
`_cancelling_flow_run_ids` and spawn `cancel_run` on the task group. -/
def cancel_dispatch_step (s : CancelSt) (i : FlowId) : CancelSt :=
  let s1 := s.add_cancelling i
  { s1 with cancel_run_spawns := s1.cancel_run_spawns ++ [i] }

/-- `Runner.check_for_cancelled_flow_runs` (runner.py:336-393): both
read queries restrict ids to
`_flow_run_process_map.keys() - _cancelling_flow_run_ids`; the server
reports `server_cancelling` as the runs in a cancelling state; each
reported run is added to `_cancelling_flow_run_ids` and a `cancel_run`
task is spawned for it. -/
def check_for_cancelled_flow_runs (server_cancelling : List FlowId)
    (st : CancelSt) : CancelSt :=
  let eligible := st.flow_run_process_map.filter
    (fun i => !(st.cancelling_flow_run_ids.contains i))
  let cancelling_flow_runs := server_cancelling.filter
    (fun i => eligible.contains i)
  cancelling_flow_runs.foldl cancel_dispatch_step st

/-- Outcome of `Runner.kill_process` as observed by `cancel_run`. -/
inductive KillOutcome
  | success
  | infra_not_found
  | generic_error
  deriving DecidableEq, Repr

/-- `Runner.cancel_run` (runner.py:395-426): with no pid mapped, the run
is marked cancelled (best-effort message) and the id stays in the
cancelling set; on a successful or `InfrastructureNotFound` kill the run
is marked cancelled and the id removal is only scheduled 10 minutes later
(runner.py:717-722), so the set is unchanged now; on any other exception
the id is removed so the next tick retries. -/
def cancel_run (i : FlowId) (k : KillOutcome) (st : CancelSt) : CancelSt :=
  if st.flow_run_process_map.contains i then
    match k with
    | KillOutcome.success => st
    | KillOutcome.infra_not_found => st
    | KillOutcome.generic_error =>
        { st with cancelling_flow_run_ids :=
            st.cancelling_flow_run_ids.filter (fun j => j ≠ i) }
  else st

/-! ### Child-process environment -/

/-- Environments as finite-support maps, extensionally: `none` means the
key is absent.  `dict.update` semantics: later entries win. -/
def EnvMap : Type := String → Option String

/-- `dict.update(base, upd)`: every key of `upd` overwrites `base`. -/
def dict_update (base upd : EnvMap) : EnvMap :=
  fun k =>
    match upd k with
    | some v => some v
    | none => base k

/-- The singleton dict `{"PREFECT__FLOW_RUN_ID": hex}` injected at
runner.py:77. -/
def flow_run_id_entry (hex : String) : EnvMap :=
  fun k => if k = "PREFECT__FLOW_RUN_ID" then some hex else none

/-- `prepare_environment` (runner.py:75-79): start from the serialized
framework settings, overlay the injected flow-run id, then overlay the
parent process environment (`os.environ`) last. -/
def prepare_environment (settings_env : EnvMap) (flow_run_id_hex : String)
    (os_environ : EnvMap) : EnvMap :=
  dict_update (dict_update settings_env (flow_run_id_entry flow_run_id_hex))
    os_environ

/-! ### Concrete fixtures used by the witness theorems -/

/-- A task with two retries, no retry predicate, a one-minute cache
expiration and a five-second timeout. -/
def exTask : Task :=
  { retries := 2, retry_condition_fn := none, cache_key_fn := none,
    cache_expiration := some 60, refresh_cache := none,
    timeout_seconds := some 5 }

/-- The state a freshly created task run carries. -/
def exState0 : State := PendingState none none

/-- A fresh engine for `exTask` with an empty server-response queue. -/
def exEngine : TaskRunEngine :=
  { task := exTask, parameters := 0, retries := 0, state := exState0,
    responses := [], proposals := [], retry_checks := 0, sleeps := [] }

/-- An engine whose server will answer the initial Running proposal with
Pending, then Paused, then Pending, then accept. -/
def exPollEngine : TaskRunEngine :=
  { exEngine with
    responses := [PendingState none none, PausedState, PendingState none none] }

/-- An engine whose server answers the initial Running proposal and the
first twelve polls with Pending, exercising the backoff cap. -/
def exPollEngine12 : TaskRunEngine :=
  { exEngine with responses := List.replicate 13 (PendingState none none) }

/-- A runner cancellation state with two live processes and nothing being
cancelled yet. -/
def exCancelSt : CancelSt :=
  { flow_run_process_map := [0, 1], cancelling_flow_run_ids := [],
    cancel_run_spawns := [] }

/-- A parent environment that also defines `PREFECT__FLOW_RUN_ID`. -/
def exOsEnviron : EnvMap :=
  fun k => if k = "PREFECT__FLOW_RUN_ID" then some "parent-value" else none

/-- Serialized framework settings with a single entry. -/
def exSettingsEnv : EnvMap :=
  fun k => if k = "PREFECT_API_URL" then some "http://api" else none

/-! ## Lemmas about the engine primitives -/

theorem set_state_fields (e : TaskRunEngine) (s : State) (f : Bool) :
    (e.set_state s f).task = e.task ∧
    (e.set_state s f).parameters = e.parameters ∧
    (e.set_state s f).retries = e.retries ∧
    (e.set_state s f).retry_checks = e.retry_checks ∧
    (e.set_state s f).sleeps = e.sleeps ∧
    (e.set_state s f).proposals = e.proposals ++ [(s, f)] := by
  rcases h : e.responses with _ | ⟨r, rest⟩ <;>
    simp [TaskRunEngine.set_state, h]

theorem handle_retry_task (e : TaskRunEngine) :
    e.handle_retry.1.task = e.task ∧
    e.handle_retry.1.parameters = e.parameters := by
  unfold TaskRunEngine.handle_retry
  split_ifs <;>
    simp [set_state_fields]

theorem handle_retry_retries (e : TaskRunEngine) :
    (e.handle_retry.2 = true →
      e.handle_retry.1.retries = e.retries + 1) ∧
    (e.handle_retry.2 = false →
      e.handle_retry.1.retries = e.retries) := by
  unfold TaskRunEngine.handle_retry
  split_ifs <;> simp [set_state_fields]

theorem handle_retry_true_lt (e : TaskRunEngine) :
    e.handle_retry.2 = true → e.retries < e.task.retries := by
  unfold TaskRunEngine.handle_retry
  split_ifs with h1 h2
  · intro _; exact h1
  · intro hb; simp at hb
  · intro hb; simp at hb

theorem attempt_step_fields (now : Int) (g : Bool) (e : TaskRunEngine)
    (o : Outcome) :
    (e.attempt_step now g o).task = e.task ∧
    (e.attempt_step now g o).parameters = e.parameters := by
  cases o with
  | success =>
      simp [TaskRunEngine.attempt_step, TaskRunEngine.handle_success,
        set_state_fields]
  | timed_out =>
      simp [TaskRunEngine.attempt_step, TaskRunEngine.handle_timeout,
        set_state_fields]
  | exception =>
      simp only [TaskRunEngine.attempt_step, TaskRunEngine.handle_exception]
      split
      · exact handle_retry_task e
      · constructor
        · rw [(set_state_fields _ _ _).1, (handle_retry_task e).1]
        · rw [(set_state_fields _ _ _).2.1, (handle_retry_task e).2]

theorem attempt_step_retries_le (now : Int) (g : Bool) (e : TaskRunEngine)
    (o : Outcome) (h : e.retries ≤ e.task.retries) :
    (e.attempt_step now g o).retries ≤ e.task.retries := by
  cases o with
  | success =>
      simp [TaskRunEngine.attempt_step, TaskRunEngine.handle_success,
        set_state_fields]
      exact h
  | timed_out =>
      simp [TaskRunEngine.attempt_step, TaskRunEngine.handle_timeout,
        set_state_fields]
      exact h
  | exception =>
      simp only [TaskRunEngine.attempt_step, TaskRunEngine.handle_exception]
      split
      · rename_i hret
        rcases hb : e.handle_retry.2 with _ | _
        · rw [(handle_retry_retries e).2 hb]; exact h
        · rw [(handle_retry_retries e).1 hb]
          have hlt := handle_retry_true_lt e hb
          omega
      · rw [(set_state_fields _ _ _).2.2.1]
        rcases hb : e.handle_retry.2 with _ | _
        · rw [(handle_retry_retries e).2 hb]; exact h
        · rw [(handle_retry_retries e).1 hb]
          have hlt := handle_retry_true_lt e hb
          omega

theorem poll_pending_fields (ns : State) :
    ∀ (fuel bc : Nat) (e : TaskRunEngine),
      (TaskRunEngine.poll_pending ns fuel bc e).task = e.task ∧
      (TaskRunEngine.poll_pending ns fuel bc e).parameters = e.parameters ∧
      (TaskRunEngine.poll_pending ns fuel bc e).retries = e.retries ∧
      (TaskRunEngine.poll_pending ns fuel bc e).retry_checks = e.retry_checks
  | 0, bc, e => by simp [TaskRunEngine.poll_pending]
  | fuel + 1, bc, e => by
      unfold TaskRunEngine.poll_pending
      split
      · have ih := poll_pending_fields ns fuel
          (if bc < BACKOFF_MAX then bc + 1 else bc)
          (({ e with sleeps := e.sleeps ++ [(if bc < BACKOFF_MAX then bc + 1
              else bc, (3 : Rat) / 10)] }).set_state ns false)
        simp only [ih, set_state_fields]
        simp [set_state_fields]
      · simp

theorem begin_run_fields (res : Option String) (now : Int) (g : Bool)
    (e : TaskRunEngine) :
    (e.begin_run res now g).task = e.task ∧
    (e.begin_run res now g).parameters = e.parameters ∧
    (e.begin_run res now g).retries = e.retries := by
  cases res with
  | some msg => simp [TaskRunEngine.begin_run, set_state_fields]
  | none =>
      simp only [TaskRunEngine.begin_run]
      constructor
      · rw [(poll_pending_fields _ _ _ _).1, (set_state_fields _ _ _).1]
      constructor
      · rw [(poll_pending_fields _ _ _ _).2.1, (set_state_fields _ _ _).2.1]
      · rw [(poll_pending_fields _ _ _ _).2.2.1,
          (set_state_fields _ _ _).2.2.1]

theorem run_loop_retries_le (now : Int) (g : Bool) :
    ∀ (outcomes : List Outcome) (e : TaskRunEngine),
      e.retries ≤ e.task.retries →
      (TaskRunEngine.run_loop now g outcomes e).1.retries ≤ e.task.retries
  | [], e, h => h
  | o :: rest, e, h => by
      unfold TaskRunEngine.run_loop
      split
      · have hstep := attempt_step_retries_le now g e o h
        have htask := (attempt_step_fields now g e o).1
        have ih := run_loop_retries_le now g rest (e.attempt_step now g o)
          (by rw [htask]; exact hstep)
        simpa [htask] using ih
      · exact h

/-- C1: on a caught ordinary exception the engine proposes a forced
Retrying state and increments the retry counter exactly when the retries
already used are strictly below `task.retries` and the retry condition
holds (absent predicate counts as true, a predicate that raises counts as
false); consequently `retries_used` never exceeds `task.retries` over a
whole `run_task_sync` run, which starts at zero retries. -/
theorem retry_rule_and_retry_bound :
    (∀ e : TaskRunEngine,
      (e.handle_retry.2 = true ↔
        (e.retries < e.task.retries ∧ e.can_retry = true)) ∧
      (e.handle_retry.2 = true →
        e.handle_retry.1.retries = e.retries + 1 ∧
        e.handle_retry.1.proposals = e.proposals ++ [(RetryingState, true)]) ∧
      (e.handle_retry.2 = false →
        e.handle_retry.1.retries = e.retries ∧
        e.handle_retry.1.proposals = e.proposals) ∧
      (e.retries ≤ e.task.retries →
        e.handle_retry.1.retries ≤ e.task.retries)) ∧
    (∀ (task : Task) (params : Nat) (s0 : State) (responses : List State)
        (resolution : Option String) (outcomes : List Outcome)
        (now : Int) (g : Bool),
      (run_task_sync task params s0 responses resolution outcomes now
        g).1.retries ≤ task.retries) := by
  constructor
  · intro e
    refine ⟨?_, ?_, ?_, ?_⟩
    · unfold TaskRunEngine.handle_retry
      split_ifs with h1 h2 <;> simp_all
    · intro hb
      refine ⟨(handle_retry_retries e).1 hb, ?_⟩
      revert hb
      unfold TaskRunEngine.handle_retry
      split_ifs <;> intro hb <;> simp_all [set_state_fields]
    · intro hb
      refine ⟨(handle_retry_retries e).2 hb, ?_⟩
      revert hb
      unfold TaskRunEngine.handle_retry
      split_ifs <;> intro hb <;> simp_all
    · intro h
      rcases hb : e.handle_retry.2 with _ | _
      · rw [(handle_retry_retries e).2 hb]; exact h
      · rw [(handle_retry_retries e).1 hb]
        have hlt := handle_retry_true_lt e hb
        omega
  · intro task params s0 responses resolution outcomes now g
    unfold run_task_sync
    have hb := begin_run_fields resolution now g
      { task := task, parameters := params, retries := 0, state := s0,
        responses := responses, proposals := [], retry_checks := 0,
        sleeps := [] }
    have := run_loop_retries_le now g outcomes
      (TaskRunEngine.begin_run resolution now g
        { task := task, parameters := params, retries := 0, state := s0,
          responses := responses, proposals := [], retry_checks := 0,
          sleeps := [] })
      (by rw [hb.1, hb.2.2]; exact Nat.zero_le _)
    simpa [hb.1] using this

/-- C2: a `TimeoutError` raised by the timeout wrapper is dispatched to
`handle_timeout`, which proposes a Failed state named "TimedOut" whose
message interpolates `task.timeout_seconds`; the retry predicate is not
consulted (`retry_checks` unchanged) and no retry is consumed
(`retries` unchanged), no matter how many retries remain. -/
theorem timeout_rule (now : Int) (g : Bool) (e : TaskRunEngine) :
    (e.attempt_step now g Outcome.timed_out).proposals =
      e.proposals ++
        [(FailedState (some "TimedOut") (some (timeoutMessage e.task)),
          false)] ∧
    (e.attempt_step now g Outcome.timed_out).retries = e.retries ∧
    (e.attempt_step now g Outcome.timed_out).retry_checks = e.retry_checks ∧
    (∀ n : Nat, e.task.timeout_seconds = some n →
      timeoutMessage e.task =
        "Task run exceeded timeout of " ++ toString n ++ " seconds") := by
  refine ⟨?_, ?_, ?_, ?_⟩
  · simp [TaskRunEngine.attempt_step, TaskRunEngine.handle_timeout,
      set_state_fields]
  · simp [TaskRunEngine.attempt_step, TaskRunEngine.handle_timeout,
      set_state_fields]
  · simp [TaskRunEngine.attempt_step, TaskRunEngine.handle_timeout,
      set_state_fields]
  · intro n hn
    simp [timeoutMessage, hn]

/-- C2 witness: the five-second-timeout fixture produces exactly the
TimedOut proposal and keeps its retry counters. -/
theorem timeout_rule_witness :
    (exEngine.attempt_step 0 false Outcome.timed_out).proposals =
      [(FailedState (some "TimedOut")
        (some "Task run exceeded timeout of 5 seconds"), false)] ∧
    (exEngine.attempt_step 0 false Outcome.timed_out).retries = 0 ∧
    (exEngine.attempt_step 0 false Outcome.timed_out).retry_checks = 0 ∧
    timeoutMessage exTask = "Task run exceeded timeout of 5 seconds" := by
  have h := timeout_rule 0 false exEngine
  refine ⟨?_, h.2.1, h.2.2.1, h.2.2.2 5 rfl⟩
  rw [h.1]
  rfl

/-- C7: `_propose_pending_state` returns true exactly when the server
returned a Pending state for the proposed transition; `Abort`, any other
exception, and a returned non-pending state all yield false, and the
model is a total function (no branch raises). -/
theorem propose_pending_state_iff (r : ProposeOutcome) :
    propose_pending_state r = true ↔
      ∃ s, r = ProposeOutcome.returned s ∧ s.is_pending = true := by
  cases r <;> simp [propose_pending_state]

/-- C7 witness: a returned Pending state yields true. -/
theorem propose_pending_state_witness :
    propose_pending_state (ProposeOutcome.returned (PendingState none none)) =
      true :=
  (propose_pending_state_iff _).mpr ⟨PendingState none none, rfl, rfl⟩

/-- C9: `is_runner_still_polling(q)` is true iff `now - last_polled_time`
is at most `30 * q` seconds (false iff it strictly exceeds `30 * q`), and
a successful scheduled-flow-run query stamps `_last_polled_time` with the
current instant. -/
theorem still_polling_rule (now last q : Int) :
    (is_runner_still_polling now last q = true ↔ now - last ≤ 30 * q) ∧
    (is_runner_still_polling now last q = false ↔ 30 * q < now - last) ∧
    get_and_submit_flow_runs_clock now last = now := by
  refine ⟨?_, ?_, rfl⟩
  · simp only [is_runner_still_polling, decide_eq_true_eq]
    omega
  · simp only [is_runner_still_polling, decide_eq_false_iff_not]
    omega

/-- C9 witness: with a ten-second query interval, 300 elapsed seconds
still polls and 301 does not. -/
theorem still_polling_witness :
    is_runner_still_polling 300 0 10 = true ∧
    is_runner_still_polling 301 0 10 = false :=
  ⟨(still_polling_rule 300 0 10).1.mpr (by omega),
   (still_polling_rule 301 0 10).2.1.mpr (by omega)⟩

/-- C10: in the child-process environment, `os.environ` is merged last,
so a key present in the parent environment wins over both the serialized
framework settings and the injected `PREFECT__FLOW_RUN_ID`; the injected
id is visible only when the parent environment does not define it, and
settings survive only for keys absent from both overlays. -/
theorem prepare_environment_rule (settings : EnvMap) (hex : String)
    (os_environ : EnvMap) :
    (∀ k v, os_environ k = some v →
      prepare_environment settings hex os_environ k = some v) ∧
    (∀ k, os_environ k = none → k = "PREFECT__FLOW_RUN_ID" →
      prepare_environment settings hex os_environ k = some hex) ∧
    (∀ k, os_environ k = none → k ≠ "PREFECT__FLOW_RUN_ID" →
      prepare_environment settings hex os_environ k = settings k) := by
  refine ⟨?_, ?_, ?_⟩
  · intro k v hk
    simp [prepare_environment, dict_update, hk]
  · intro k hk hid
    subst hid
    simp [prepare_environment, dict_update, flow_run_id_entry, hk]
  · intro k hk hid
    simp [prepare_environment, dict_update, flow_run_id_entry, hk, hid]

/-- C10 witness: the parent's `PREFECT__FLOW_RUN_ID` overrides the
injected one. -/
theorem prepare_environment_witness :
    prepare_environment exSettingsEnv "deadbeef" exOsEnviron
      "PREFECT__FLOW_RUN_ID" = some "parent-value" :=
  (prepare_environment_rule exSettingsEnv "deadbeef" exOsEnviron).1
    "PREFECT__FLOW_RUN_ID" "parent-value" rfl

/-- C5: evaluation of the submission pipeline on each completion path.
A submission rejected by the storage-block precheck acquires one limiter
slot and releases none (the early return at runner.py:561-562 skips the
release), contradicting the claim that every completion path releases the
slot exactly once; the failed-Pending-proposal, failed-start, crashed
(non-zero exit) and clean-exit paths do release exactly once. -/
theorem storage_block_precheck_leaks_limiter_slot :
    (submit_pipeline PrecheckOutcome.storage_block
      (ProposeOutcome.returned (PendingState none none))
      (ProcessOutcome.exits 0)).limiter_acquired = 1 ∧
    (submit_pipeline PrecheckOutcome.storage_block
      (ProposeOutcome.returned (PendingState none none))
      (ProcessOutcome.exits 0)).limiter_released = 0 ∧
    (submit_pipeline PrecheckOutcome.passes ProposeOutcome.abort
      (ProcessOutcome.exits 0)).limiter_released = 1 ∧
    (submit_pipeline PrecheckOutcome.passes
      (ProposeOutcome.returned (PendingState none none))
      ProcessOutcome.start_failure).limiter_released = 1 ∧
    (submit_pipeline PrecheckOutcome.passes
      (ProposeOutcome.returned (PendingState none none))
      (ProcessOutcome.exits 1)).limiter_released = 1 ∧
    (submit_pipeline PrecheckOutcome.passes
      (ProposeOutcome.returned (PendingState none none))
      (ProcessOutcome.exits 0)).limiter_released = 1 := by
  decide

theorem cancel_dispatch_step_process_map (s : CancelSt) (i : FlowId) :
    (cancel_dispatch_step s i).flow_run_process_map =
      s.flow_run_process_map := by
  unfold cancel_dispatch_step CancelSt.add_cancelling
  split_ifs <;> rfl

theorem cancel_fold_process_map (l : List FlowId) :
    ∀ st : CancelSt,
      (l.foldl cancel_dispatch_step st).flow_run_process_map =
        st.flow_run_process_map := by
  induction l with
  | nil => intro st; rfl
  | cons i rest ih =>
      intro st
      simpa [cancel_dispatch_step_process_map] using
        ih (cancel_dispatch_step st i)

theorem cancel_dispatch_step_mono (s : CancelSt) (i j : FlowId)
    (h : s.cancelling_flow_run_ids.contains j = true) :
    (cancel_dispatch_step s i).cancelling_flow_run_ids.contains j = true := by
  unfold cancel_dispatch_step CancelSt.add_cancelling
  split_ifs with hc
  · exact h
  · simp only [List.elem_iff] at h ⊢
    exact List.mem_append_left _ h

theorem cancel_fold_mono (l : List FlowId) :
    ∀ (st : CancelSt) (j : FlowId),
      st.cancelling_flow_run_ids.contains j = true →
      (l.foldl cancel_dispatch_step st).cancelling_flow_run_ids.contains j =
        true := by
  induction l with
  | nil => intro st j h; exact h
  | cons i rest ih =>
      intro st j h
      exact ih (cancel_dispatch_step st i) j
        (cancel_dispatch_step_mono st i j h)

theorem cancel_dispatch_step_adds (s : CancelSt) (i : FlowId) :
    (cancel_dispatch_step s i).cancelling_flow_run_ids.contains i = true := by
  unfold cancel_dispatch_step CancelSt.add_cancelling
  split_ifs with hc
  · exact hc
  · simp [List.elem_iff]

theorem cancel_fold_mem (l : List FlowId) :
    ∀ (st : CancelSt) (i : FlowId), i ∈ l →
      (l.foldl cancel_dispatch_step st).cancelling_flow_run_ids.contains i =
        true := by
  induction l with
  | nil => intro st i h; cases h
  | cons a rest ih =>
      intro st i h
      rcases List.mem_cons.mp h with rfl | h
      · exact cancel_fold_mono rest (cancel_dispatch_step st i) i
          (cancel_dispatch_step_adds st i)
      · exact ih (cancel_dispatch_step st a) i h

theorem check_process_map (L : List FlowId) (st : CancelSt) :
    (check_for_cancelled_flow_runs L st).flow_run_process_map =
      st.flow_run_process_map := by
  unfold check_for_cancelled_flow_runs
  exact cancel_fold_process_map _ st

theorem check_cancelling_mono (L : List FlowId) (st : CancelSt) (i : FlowId)
    (h : st.cancelling_flow_run_ids.contains i = true) :
    (check_for_cancelled_flow_runs L st).cancelling_flow_run_ids.contains i =
      true := by
  unfold check_for_cancelled_flow_runs
  exact cancel_fold_mono _ st i h

theorem check_cancelling_mem (L : List FlowId) (st : CancelSt) (i : FlowId)
    (hiL : i ∈ L) (hproc : i ∈ st.flow_run_process_map)
    (hnc : st.cancelling_flow_run_ids.contains i = false) :
    (check_for_cancelled_flow_runs L st).cancelling_flow_run_ids.contains i =
      true := by
  unfold check_for_cancelled_flow_runs
  apply cancel_fold_mem
  simp only [List.mem_filter, List.elem_iff]
  refine ⟨hiL, ?_⟩
  simp only [List.elem_iff, List.mem_filter, Bool.not_eq_true', decide_eq_true_eq]
  exact ⟨hproc, hnc⟩

theorem check_idempotent_aux (L : List FlowId) (st : CancelSt) :
    check_for_cancelled_flow_runs L (check_for_cancelled_flow_runs L st) =
      check_for_cancelled_flow_runs L st := by
  have hempty : L.filter (fun i =>
      ((check_for_cancelled_flow_runs L st).flow_run_process_map.filter
        (fun j => !((check_for_cancelled_flow_runs L
          st).cancelling_flow_run_ids.contains j))).contains i) = [] := by
    rw [List.filter_eq_nil_iff]
    intro i hiL hpred
    simp only [List.elem_iff, List.mem_filter, Bool.not_eq_true'] at hpred
    obtain ⟨hproc, hnc⟩ := hpred
    rw [check_process_map] at hproc
    by_cases hc : st.cancelling_flow_run_ids.contains i = true
    · rw [check_cancelling_mono L st i hc] at hnc
      simp at hnc
    · rw [check_cancelling_mem L st i hiL hproc
        (Bool.eq_false_iff.mpr hc)] at hnc
      simp at hnc
  show (L.filter (fun i =>
      ((check_for_cancelled_flow_runs L st).flow_run_process_map.filter
        (fun j => !((check_for_cancelled_flow_runs L
          st).cancelling_flow_run_ids.contains j))).contains i)).foldl
    cancel_dispatch_step (check_for_cancelled_flow_runs L st) =
    check_for_cancelled_flow_runs L st
  rw [hempty]
  rfl

theorem cancel_run_keeps (i : FlowId) (k : KillOutcome) (st : CancelSt)
    (hk : k ≠ KillOutcome.generic_error) : cancel_run i k st = st := by
  unfold cancel_run
  cases k with
  | success => split_ifs <;> rfl
  | infra_not_found => split_ifs <;> rfl
  | generic_error => exact absurd rfl hk

/-- C6: dispatching the same cancellation twice is observably equivalent
to dispatching it once: the second pass of
`check_for_cancelled_flow_runs` filters the id out because it is already
a member of `_cancelling_flow_run_ids`, so no second `cancel_run` is
spawned — including after a completed `cancel_run` (success,
`InfrastructureNotFound`, or missing pid), which leaves the id in the
cancelling set (its removal is only scheduled ten minutes later). -/
theorem cancel_dispatch_idempotent :
    (∀ (L : List FlowId) (st : CancelSt),
      check_for_cancelled_flow_runs L (check_for_cancelled_flow_runs L st) =
        check_for_cancelled_flow_runs L st) ∧
    (∀ (i : FlowId) (st : CancelSt) (k : KillOutcome),
      k ≠ KillOutcome.generic_error →
      check_for_cancelled_flow_runs [i]
          (cancel_run i k (check_for_cancelled_flow_runs [i] st)) =
        check_for_cancelled_flow_runs [i] st) := by
  refine ⟨check_idempotent_aux, ?_⟩
  intro i st k hk
  rw [cancel_run_keeps i k _ hk]
  exact check_idempotent_aux [i] st

/-- C6 witness: with a live process for run 0, a second dispatch after a
successful kill changes nothing, and exactly one `cancel_run` was
spawned. -/
theorem cancel_dispatch_witness :
    check_for_cancelled_flow_runs [0]
        (cancel_run 0 KillOutcome.success
          (check_for_cancelled_flow_runs [0] exCancelSt)) =
      check_for_cancelled_flow_runs [0] exCancelSt ∧
    (check_for_cancelled_flow_runs [0] exCancelSt).cancel_run_spawns = [0] :=
  ⟨cancel_dispatch_idempotent.2 0 exCancelSt KillOutcome.success
    (by decide), by decide⟩

theorem run_loop_stopped (now : Int) (g : Bool) (outcomes : List Outcome)
    (e : TaskRunEngine) (h : e.is_running = false) :
    TaskRunEngine.run_loop now g outcomes e = (e, 0) := by
  cases outcomes <;> simp [TaskRunEngine.run_loop, h]

theorem begin_run_upstream (msg : String) (now : Int) (g : Bool)
    (e : TaskRunEngine) :
    (e.begin_run (some msg) now g).proposals =
      e.proposals ++
        [(PendingState (some "NotReady") (some msg), e.state.is_pending)] ∧
    (e.begin_run (some msg) now g).state =
      (e.responses.head?).getD
        (PendingState (some "NotReady") (some msg)) := by
  constructor
  · simp [TaskRunEngine.begin_run, set_state_fields]
  · rcases h : e.responses with _ | ⟨r, rest⟩ <;>
      simp [TaskRunEngine.begin_run, TaskRunEngine.set_state, h]

/-- C4: when parameter or `wait_for` resolution raises
`UpstreamTaskError`, `begin_run` proposes exactly one state — a Pending
state named "NotReady" carrying the error message, forced exactly when
the current state is already pending — and never proposes Running; if the
server does not answer that Pending proposal with a Running state, the
run loop's `is_running` gate fails and the user task function is executed
zero times. -/
theorem upstream_error_rule (task : Task) (params : Nat) (s0 : State)
    (responses : List State) (outcomes : List Outcome) (now : Int)
    (g : Bool) (msg : String)
    (h : ∀ r, responses.head? = some r → r.is_running = false) :
    (run_task_sync task params s0 responses (some msg) outcomes now
        g).1.proposals =
      [(PendingState (some "NotReady") (some msg), s0.is_pending)] ∧
    (run_task_sync task params s0 responses (some msg) outcomes now
        g).1.state.is_running = false ∧
    (run_task_sync task params s0 responses (some msg) outcomes now
        g).2 = 0 := by
  unfold run_task_sync
  have hb := begin_run_upstream msg now g
    { task := task, parameters := params, retries := 0, state := s0,
      responses := responses, proposals := [], retry_checks := 0,
      sleeps := [] }
  have hnotrun : (TaskRunEngine.begin_run (some msg) now g
      { task := task, parameters := params, retries := 0, state := s0,
        responses := responses, proposals := [], retry_checks := 0,
        sleeps := [] }).state.is_running = false := by
    rw [hb.2]
    rcases hr : responses.head? with _ | r
    · rfl
    · exact h r hr
  have hloop := run_loop_stopped now g outcomes _ hnotrun
  rw [hloop]
  exact ⟨by rw [hb.1]; rfl, hnotrun, rfl⟩

/-- C4 witness: a run whose upstream dependency is unresolved executes
zero attempts and leaves only the NotReady proposal (the server
hypothesis is discharged by the empty response queue). -/
theorem upstream_error_witness :
    (run_task_sync exTask 0 exState0 [] (some "upstream failed")
        [Outcome.success] 0 false).1.proposals =
      [(PendingState (some "NotReady") (some "upstream failed"), true)] ∧
    (run_task_sync exTask 0 exState0 [] (some "upstream failed")
        [Outcome.success] 0 false).2 = 0 := by
  have h := upstream_error_rule exTask 0 exState0 [] [Outcome.success] 0
    false "upstream failed" (fun r hr => nomatch hr)
  exact ⟨by rw [h.1]; rfl, h.2.2⟩

/-- C1 witness: a fresh two-retry engine retries (hypotheses of the iff
and of the bound are discharged at this input). -/
theorem retry_rule_witness :
    exEngine.handle_retry.2 = true ∧
    exEngine.handle_retry.1.retries = 1 ∧
    (run_task_sync exTask 0 exState0 [] none [Outcome.exception] 0
      false).1.retries ≤ exTask.retries :=
  ⟨(retry_rule_and_retry_bound.1 exEngine).1.mpr ⟨by decide, by rfl⟩,
   by
    have h2 := (retry_rule_and_retry_bound.1 exEngine).2.1
      ((retry_rule_and_retry_bound.1 exEngine).1.mpr ⟨by decide, by rfl⟩)
    exact h2.1,
   retry_rule_and_retry_bound.2 exTask 0 exState0 [] none
     [Outcome.exception] 0 false⟩

theorem proposal_ok_null (t : Task) (params : Nat) (now : Int) (g : Bool)
    (x : State × Bool) (hs : x.1.state_details = StateDetails.null)
    (hne : x.1.type ≠ StateType.Completed) :
    ProposalOK t params now g x :=
  ⟨fun _ => by rw [hs]; rfl, fun hc => absurd hc hne⟩

theorem compute_false_expiration (t : Task) (params : Nat) (now : Int)
    (g : Bool) :
    (TaskRunEngine.compute_state_details t params now g
      false).cache_expiration = none := by
  simp [TaskRunEngine.compute_state_details]

theorem set_state_ok (t : Task) (params : Nat) (now : Int) (g : Bool)
    (e : TaskRunEngine) (st : State) (f : Bool)
    (he : ∀ p ∈ e.proposals, ProposalOK t params now g p)
    (hs : ProposalOK t params now g (st, f)) :
    ∀ p ∈ (e.set_state st f).proposals, ProposalOK t params now g p := by
  rw [(set_state_fields e st f).2.2.2.2.2]
  intro p hp
  rcases List.mem_append.mp hp with h | h
  · exact he p h
  · rw [List.mem_singleton.mp h]
    exact hs

theorem handle_retry_proposals (e : TaskRunEngine) :
    e.handle_retry.1.proposals = e.proposals ∨
    e.handle_retry.1.proposals = e.proposals ++ [(RetryingState, true)] := by
  unfold TaskRunEngine.handle_retry
  split_ifs <;> simp [set_state_fields]

theorem handle_retry_ok (t : Task) (params : Nat) (now : Int) (g : Bool)
    (e : TaskRunEngine)
    (he : ∀ p ∈ e.proposals, ProposalOK t params now g p) :
    ∀ p ∈ e.handle_retry.1.proposals, ProposalOK t params now g p := by
  rcases handle_retry_proposals e with h | h <;> rw [h]
  · exact he
  · intro p hp
    rcases List.mem_append.mp hp with hmem | hmem
    · exact he p hmem
    · rw [List.mem_singleton.mp hmem]
      exact proposal_ok_null t params now g _ rfl (by simp [RetryingState])

theorem handle_success_ok (t : Task) (params : Nat) (now : Int) (g : Bool)
    (e : TaskRunEngine) (ht : e.task = t) (hpar : e.parameters = params)
    (he : ∀ p ∈ e.proposals, ProposalOK t params now g p) :
    ∀ p ∈ (e.handle_success now g).proposals, ProposalOK t params now g p := by
  apply set_state_ok t params now g e _ _ he
  constructor
  · intro hne
    exact absurd rfl hne
  · intro _
    show TaskRunEngine.compute_state_details e.task e.parameters now g true =
      TaskRunEngine.compute_state_details t params now g true
    rw [ht, hpar]

theorem attempt_step_ok (t : Task) (params : Nat) (now : Int) (g : Bool)
    (e : TaskRunEngine) (o : Outcome) (ht : e.task = t)
    (hpar : e.parameters = params)
    (he : ∀ p ∈ e.proposals, ProposalOK t params now g p) :
    ∀ p ∈ (e.attempt_step now g o).proposals, ProposalOK t params now g p := by
  cases o with
  | success => exact handle_success_ok t params now g e ht hpar he
  | timed_out =>
      unfold TaskRunEngine.attempt_step TaskRunEngine.handle_timeout
      exact set_state_ok t params now g e _ _ he
        (proposal_ok_null t params now g _ rfl (by simp [FailedState]))
  | exception =>
      unfold TaskRunEngine.attempt_step TaskRunEngine.handle_exception
      split_ifs
      · exact handle_retry_ok t params now g e he
      · exact set_state_ok t params now g _ _ _
          (handle_retry_ok t params now g e he)
          (proposal_ok_null t params now g _ rfl (by simp [FailedState]))

theorem poll_pending_ok (t : Task) (params : Nat) (now : Int) (g : Bool)
    (ns : State) (hns : ProposalOK t params now g (ns, false)) :
    ∀ (fuel bc : Nat) (e : TaskRunEngine),
      (∀ p ∈ e.proposals, ProposalOK t params now g p) →
      ∀ p ∈ (TaskRunEngine.poll_pending ns fuel bc e).proposals,
        ProposalOK t params now g p
  | 0, bc, e, he => he
  | fuel + 1, bc, e, he => by
      unfold TaskRunEngine.poll_pending
      split
      · exact poll_pending_ok t params now g ns hns fuel _ _
          (set_state_ok t params now g _ ns false he hns)
      · exact he

theorem begin_run_ok (t : Task) (params : Nat) (now : Int) (g : Bool)
    (res : Option String) (e : TaskRunEngine) (_ht : e.task = t)
    (_hpar : e.parameters = params)
    (he : ∀ p ∈ e.proposals, ProposalOK t params now g p) :
    ∀ p ∈ (e.begin_run res now g).proposals, ProposalOK t params now g p := by
  cases res with
  | some msg =>
      unfold TaskRunEngine.begin_run
      exact set_state_ok t params now g e _ _ he
        (proposal_ok_null t params now g _ rfl (by simp [PendingState]))
  | none =>
      unfold TaskRunEngine.begin_run
      have hns : ProposalOK t params now g
          (RunningState (TaskRunEngine.compute_state_details e.task
            e.parameters now g false), false) := by
        constructor
        · intro _
          show (TaskRunEngine.compute_state_details e.task e.parameters now g
            false).cache_expiration = none
          exact compute_false_expiration e.task e.parameters now g
        · intro hc
          exact absurd hc (by simp [RunningState])
      exact poll_pending_ok t params now g _ hns _ _ _
        (set_state_ok t params now g e _ _ he hns)

theorem run_loop_ok (t : Task) (params : Nat) (now : Int) (g : Bool) :
    ∀ (outcomes : List Outcome) (e : TaskRunEngine), e.task = t →
      e.parameters = params →
      (∀ p ∈ e.proposals, ProposalOK t params now g p) →
      ∀ p ∈ (TaskRunEngine.run_loop now g outcomes e).1.proposals,
        ProposalOK t params now g p
  | [], e, _, _, he => he
  | o :: rest, e, ht, hpar, he => by
      unfold TaskRunEngine.run_loop
      split
      · exact run_loop_ok t params now g rest _
          ((attempt_step_fields now g e o).1.trans ht)
          ((attempt_step_fields now g e o).2.trans hpar)
          (attempt_step_ok t params now g e o ht hpar he)
      · exact he

/-- C3: over a whole run, every proposed state that is not Completed
carries a null `cache_expiration`; the Completed proposal carries exactly
the details computed with `include_cache_expiration=True`;
`handle_success` is the producer of that Completed proposal; and the
expiration computed there is `now + task.cache_expiration` when the task
defines a (truthy) expiration, while the interim computation
(`include_cache_expiration=False`, used for the initial Running state)
always yields null. -/
theorem cache_expiration_rule (task : Task) (params : Nat) (s0 : State)
    (responses : List State) (resolution : Option String)
    (outcomes : List Outcome) (now : Int) (g : Bool) :
    (∀ p ∈ (run_task_sync task params s0 responses resolution outcomes now
        g).1.proposals,
      (p.1.type ≠ StateType.Completed →
        p.1.state_details.cache_expiration = none) ∧
      (p.1.type = StateType.Completed →
        p.1.state_details =
          TaskRunEngine.compute_state_details task params now g true)) ∧
    (∀ e : TaskRunEngine, (e.handle_success now g).proposals =
      e.proposals ++
        [(CompletedState (TaskRunEngine.compute_state_details e.task
          e.parameters now g true), false)]) ∧
    (∀ d : Int, task.cache_expiration = some d → d ≠ 0 →
      (TaskRunEngine.compute_state_details task params now g
        true).cache_expiration = some (now + d)) ∧
    (TaskRunEngine.compute_state_details task params now g
      false).cache_expiration = none := by
  refine ⟨?_, ?_, ?_, compute_false_expiration task params now g⟩
  · unfold run_task_sync
    have hb := begin_run_fields resolution now g
      { task := task, parameters := params, retries := 0, state := s0,
        responses := responses, proposals := [], retry_checks := 0,
        sleeps := [] }
    exact run_loop_ok task params now g outcomes _ hb.1 hb.2.1
      (begin_run_ok task params now g resolution _ rfl rfl
        (by intro p hp; cases hp))
  · intro e
    exact (set_state_fields e _ _).2.2.2.2.2
  · intro d hd hne
    simp [TaskRunEngine.compute_state_details, hd, hne]

/-- C3 witness: with a sixty-second cache expiration, the terminal
computation stamps `now + 60` and the interim computation stays null; at
a concrete timed-out run, the Failed proposal carries no expiration. -/
theorem cache_expiration_witness :
    (TaskRunEngine.compute_state_details exTask 0 100 false
      true).cache_expiration = some 160 ∧
    (TaskRunEngine.compute_state_details exTask 0 100 false
      false).cache_expiration = none ∧
    (FailedState (some "TimedOut")
      (some "Task run exceeded timeout of 5 seconds")).state_details.cache_expiration
      = none := by
  have h := cache_expiration_rule exTask 0 exState0 [] none
    [Outcome.timed_out] 100 false
  refine ⟨h.2.2.1 60 rfl (by decide), h.2.2.2, ?_⟩
  exact (h.1 (FailedState (some "TimedOut")
    (some "Task run exceeded timeout of 5 seconds"), false) (by decide)).1
    (by decide)

theorem set_state_nil (e : TaskRunEngine) (st : State) (f : Bool)
    (h : e.responses = []) :
    e.set_state st f =
      { e with state := st, proposals := e.proposals ++ [(st, f)] } := by
  simp [TaskRunEngine.set_state, h]

theorem set_state_cons (e : TaskRunEngine) (st : State) (f : Bool)
    (r : State) (rest : List State) (h : e.responses = r :: rest) :
    e.set_state st f =
      { e with state := r, responses := rest,
               proposals := e.proposals ++ [(st, f)] } := by
  simp [TaskRunEngine.set_state, h]

theorem poll_pending_stopped (ns : State) (fuel bc : Nat)
    (e : TaskRunEngine)
    (h : (e.state.is_pending || e.state.is_paused) = false) :
    TaskRunEngine.poll_pending ns fuel bc e = e := by
  cases fuel <;> simp [TaskRunEngine.poll_pending, h]

theorem poll_pending_step (ns : State) (fuel bc : Nat) (e : TaskRunEngine)
    (hcond : (e.state.is_pending || e.state.is_paused) = true) :
    TaskRunEngine.poll_pending ns (fuel + 1) bc e =
      TaskRunEngine.poll_pending ns fuel
        (if bc < BACKOFF_MAX then bc + 1 else bc)
        (({ e with sleeps := e.sleeps ++
            [(if bc < BACKOFF_MAX then bc + 1 else bc, (3 : Rat) / 10)]
          }).set_state ns false) := by
  simp [TaskRunEngine.poll_pending, hcond]

theorem backoff_step_min (bc : Nat) (h : bc ≤ BACKOFF_MAX) :
    (if bc < BACKOFF_MAX then bc + 1 else bc) = min (bc + 1) BACKOFF_MAX := by
  unfold BACKOFF_MAX at *
  split_ifs <;> omega

theorem backoff_shift (bc i : Nat) (h : bc ≤ BACKOFF_MAX) :
    min (bc + (i + 1) + 1) BACKOFF_MAX =
      min ((if bc < BACKOFF_MAX then bc + 1 else bc) + i + 1) BACKOFF_MAX := by
  unfold BACKOFF_MAX at *
  split_ifs <;> omega

theorem poll_pending_trace (ns : State)
    (hns : (ns.is_pending || ns.is_paused) = false) :
    ∀ (fuel bc : Nat) (e : TaskRunEngine), bc ≤ BACKOFF_MAX →
      e.responses.length + 2 ≤ fuel →
      ∃ n,
        (TaskRunEngine.poll_pending ns fuel bc e).sleeps =
          e.sleeps ++ (List.range n).map
            (fun i => (min (bc + i + 1) BACKOFF_MAX, (3 : Rat) / 10)) ∧
        (TaskRunEngine.poll_pending ns fuel bc e).proposals =
          e.proposals ++ List.replicate n (ns, false) ∧
        ((TaskRunEngine.poll_pending ns fuel bc e).state.is_pending ||
          (TaskRunEngine.poll_pending ns fuel bc e).state.is_paused) =
          false := by
  intro fuel
  induction fuel with
  | zero => intro bc e _ hfuel; omega
  | succ fuel ih =>
      intro bc e hbc hfuel
      by_cases hcond : (e.state.is_pending || e.state.is_paused) = true
      · rw [poll_pending_step ns fuel bc e hcond]
        rcases hresp : e.responses with _ | ⟨r, rest⟩
        · -- oracle exhausted: the proposal is echoed, so the next state is
          -- `ns` and the loop exits immediately
          rw [set_state_nil _ ns false rfl]
          rw [poll_pending_stopped ns fuel _ _ (by exact hns)]
          refine ⟨1, ?_, ?_, ?_⟩
          · show e.sleeps ++ [(if bc < BACKOFF_MAX then bc + 1 else bc,
              (3 : Rat) / 10)] = _
            rw [backoff_step_min bc hbc]
            rfl
          · rfl
          · exact hns
        · rw [set_state_cons _ ns false r rest rfl]
          have hlen : rest.length + 2 ≤ fuel := by
            have h := hfuel
            rw [hresp] at h
            simp at h
            omega
          obtain ⟨n, hs, hp, hstate⟩ := ih
            (if bc < BACKOFF_MAX then bc + 1 else bc)
            { e with
              sleeps := e.sleeps ++ [(if bc < BACKOFF_MAX then bc + 1
                else bc, (3 : Rat) / 10)],
              state := r, responses := rest,
              proposals := e.proposals ++ [(ns, false)] }
            (by rw [backoff_step_min bc hbc]; exact min_le_right _ _)
            hlen
          refine ⟨n + 1, ?_, ?_, hstate⟩
          · rw [hs]
            show (e.sleeps ++ [(if bc < BACKOFF_MAX then bc + 1 else bc,
                (3 : Rat) / 10)]) ++ (List.range n).map
                  (fun i => (min ((if bc < BACKOFF_MAX then bc + 1 else bc)
                    + i + 1) BACKOFF_MAX, (3 : Rat) / 10)) =
              e.sleeps ++ (List.range (n + 1)).map
                (fun i => (min (bc + i + 1) BACKOFF_MAX, (3 : Rat) / 10))
            rw [List.append_assoc, List.singleton_append,
              List.range_succ_eq_map, List.map_cons, List.map_map]
            congr 1
            congr 1
            · rw [backoff_step_min bc hbc]
            · apply List.map_congr_left
              intro i _
              show (min ((if bc < BACKOFF_MAX then bc + 1 else bc) + i + 1)
                  BACKOFF_MAX, (3 : Rat) / 10) =
                (min (bc + (i + 1) + 1) BACKOFF_MAX, (3 : Rat) / 10)
              rw [← backoff_shift bc i hbc]
          · rw [hp]
            show (e.proposals ++ [(ns, false)]) ++
                List.replicate n (ns, false) =
              e.proposals ++ List.replicate (n + 1) (ns, false)
            rw [List.append_assoc, List.singleton_append,
              List.replicate_succ]
      · have hfalse : (e.state.is_pending || e.state.is_paused) = false :=
          Bool.not_eq_true _ |>.mp hcond
        rw [poll_pending_stopped ns (fuel + 1) bc e hfalse]
        exact ⟨0, by simp, by simp, hfalse⟩

/-- C8: while the state returned from the initial Running proposal is
pending or paused, `begin_run` re-proposes the same Running state and
sleeps for a `clamped_poisson_interval` with clamping factor 0.3 whose
average interval grows 1, 2, ... up to `BACKOFF_MAX = 10` and never
exceeds 10 however many iterations occur, and the loop ends with a state
that is neither pending nor paused. -/
theorem backoff_rule (now : Int) (g : Bool) (e : TaskRunEngine)
    (h0 : e.sleeps = []) (h1 : e.proposals = []) :
    ∃ n,
      (e.begin_run none now g).sleeps =
        (List.range n).map
          (fun i => (min (i + 1) BACKOFF_MAX, (3 : Rat) / 10)) ∧
      (e.begin_run none now g).proposals =
        List.replicate (n + 1)
          (RunningState (TaskRunEngine.compute_state_details e.task
            e.parameters now g false), false) ∧
      (∀ c ∈ (e.begin_run none now g).sleeps,
        c.1 ≤ BACKOFF_MAX ∧ c.2 = (3 : Rat) / 10) ∧
      ((e.begin_run none now g).state.is_pending ||
        (e.begin_run none now g).state.is_paused) = false := by
  unfold TaskRunEngine.begin_run
  have hns : ((RunningState (TaskRunEngine.compute_state_details e.task
      e.parameters now g false)).is_pending ||
      (RunningState (TaskRunEngine.compute_state_details e.task
        e.parameters now g false)).is_paused) = false := rfl
  obtain ⟨n, hs, hp, hstate⟩ := poll_pending_trace _ hns
    ((e.set_state (RunningState (TaskRunEngine.compute_state_details e.task
      e.parameters now g false)) false).responses.length + 2) 0
    (e.set_state (RunningState (TaskRunEngine.compute_state_details e.task
      e.parameters now g false)) false)
    (by norm_num [BACKOFF_MAX]) le_rfl
  refine ⟨n, ?_, ?_, ?_, hstate⟩
  · rw [hs, (set_state_fields e _ _).2.2.2.2.1, h0]
    simp
  · rw [hp, (set_state_fields e _ _).2.2.2.2.2, h1]
    simp [List.replicate_succ]
  · intro c hc
    rw [hs, (set_state_fields e _ _).2.2.2.2.1, h0] at hc
    simp only [List.nil_append, List.mem_map, List.mem_range] at hc
    obtain ⟨i, _, rfl⟩ := hc
    exact ⟨min_le_right _ _, rfl⟩

/-- C8 witness: with twelve straight Pending answers the averages are
1..10 capped at 10, the clamping factor is always 0.3, and the loop ends
non-pending (hypotheses discharged by the fresh fixture). -/
theorem backoff_witness :
    (exPollEngine12.begin_run none 0 false).sleeps.map Prod.fst =
      [1, 2, 3, 4, 5, 6, 7, 8, 9, 10, 10, 10, 10] ∧
    ((exPollEngine12.begin_run none 0 false).state.is_pending ||
      (exPollEngine12.begin_run none 0 false).state.is_paused) = false := by
  obtain ⟨n, hs, hp, hb, hstate⟩ := backoff_rule 0 false exPollEngine12
    rfl rfl
  exact ⟨by decide, hstate⟩

end Prefect
